import Mathlib

/-!
Verification of the portfolio HTML compiler (src/HTML-compile-complete.js)
against its natural-language specification.

The JavaScript source is shallowly embedded: each generator function becomes
a Lean function from the (immutable) portfolio document to a string, and the
small JavaScript idioms the code relies on (truthiness of strings, `x || d`
defaults, `Array.prototype.join`, `String.prototype.replace` replacing only
the first occurrence of a plain-string pattern, `Set` deduplication keeping
first occurrences, out-of-range indexing yielding `undefined` which
stringifies to "undefined") are modelled explicitly by the `js*` helpers
below.  Optional / possibly-absent JSON fields are `Option` values; a JSON
object used as an ordered string-keyed map is a `List (String × _)` in key
insertion order.  Whitespace inside the long HTML template literals is kept
only approximately, and a few inert presentational fragments (hover handler
attributes, decorative SVG bodies inside the download buttons, the
references page's static navigation chrome) are abbreviated; every guard,
interpolation, loop, filter and derived value mirrors the source line by
line.
-/

/-- Characters the ECMAScript WhiteSpace and LineTerminator classes cover, as
removed by `String.prototype.trim`: the ASCII blanks, NBSP, ZWNBSP, the line
and paragraph separators, and the Unicode Zs space separators (Ogham space
mark, the en/em/figure/punctuation/thin/hair spaces U+2000-U+200A, the
narrow no-break, medium mathematical and ideographic spaces). -/
def jsWhitespaceChars : List Char :=
  [' ', '\t', '\n', '\r', '\x0b', '\x0c', '\u00a0', '\ufeff', '\u2028', '\u2029',
   '\u1680', '\u2000', '\u2001', '\u2002', '\u2003', '\u2004', '\u2005', '\u2006',
   '\u2007', '\u2008', '\u2009', '\u200a', '\u202f', '\u205f', '\u3000']

/-- Whether a character is JavaScript whitespace. -/
def isJsWhitespace (c : Char) : Bool := jsWhitespaceChars.contains c

/-- `String.prototype.trim`: drop leading and trailing whitespace. -/
def jsTrim (s : String) : String :=
  ⟨((s.data.dropWhile isJsWhitespace).reverse.dropWhile isJsWhitespace).reverse⟩

/-- JavaScript truthiness of a possibly-absent string: `undefined`, `null`
and the empty string are falsy, every other string is truthy. -/
def jsTruthy (o : Option String) : Bool :=
  match o with
  | none => false
  | some s => s ≠ ""

/-- The JavaScript default idiom `x || d` for a possibly-absent string. -/
def jsOr (o : Option String) (d : String) : String :=
  match o with
  | none => d
  | some s => if s = "" then d else s

/-- JavaScript indexing `l[i]` into an array of strings: out of range gives
`undefined`, which a template literal renders as the text "undefined". -/
def jsIndexStr (l : List String) (i : Nat) : String :=
  match l.get? i with
  | some s => s
  | none => "undefined"

/-- JavaScript `l[l.length - 1]`: for an empty array the index is `-1`, so the
result is `undefined`, rendered as "undefined". -/
def jsLastIndexStr (l : List String) : String :=
  if l.length = 0 then "undefined" else jsIndexStr l (l.length - 1)

/-- Accumulator pass of `jsSetDedup`: keep the first occurrence of each
element, skipping those already seen. -/
def jsSetDedupGo : List String → List String → List String
  | _, [] => []
  | seen, x :: xs =>
    if x ∈ seen then jsSetDedupGo seen xs else x :: jsSetDedupGo (x :: seen) xs

/-- `[...new Set(l)]`: deduplication preserving first-occurrence order. -/
def jsSetDedup (l : List String) : List String := jsSetDedupGo [] l

/-- One scanning step of `String.prototype.replace` with a plain-string
pattern: replace the first (leftmost) occurrence of `pat` by `rep`, leave the
text unchanged when `pat` does not occur.  An empty pattern matches at the
start, as in JavaScript. -/
def replaceFirstL (pat rep : List Char) : List Char → List Char
  | [] => if pat = [] then rep else []
  | c :: rest =>
    if pat.isPrefixOf (c :: rest) then rep ++ (c :: rest).drop pat.length
    else c :: replaceFirstL pat rep rest

/-- `s.replace(pat, rep)` for a plain-string pattern: first occurrence only. -/
def jsReplaceFirst (s pat rep : String) : String :=
  ⟨replaceFirstL pat.data rep.data s.data⟩

/-- Whether `pat` occurs as a contiguous run inside `hay` (the occurrence
test `String.prototype.replace` performs while scanning). -/
def occursInL (pat : List Char) : List Char → Bool
  | [] => pat.isPrefixOf []
  | c :: rest => pat.isPrefixOf (c :: rest) || occursInL pat rest

/-- Replace every occurrence of the single character `c` by `rep`, the effect
of `String.prototype.replace` with a one-character global regular expression
such as `/&/g`. -/
def replaceCharAll (c : Char) (rep : String) (s : String) : String :=
  ⟨s.data.flatMap fun x => if x = c then rep.data else [x]⟩

/-- The five sequential global replacements of `escapeHtml` (source lines
24-29), applied in source order: `&` first, then `<`, `>`, `"`, `'`. -/
def escapeReplacements (s : String) : String :=
  replaceCharAll '\'' "&#39;"
    (replaceCharAll '"' "&quot;"
      (replaceCharAll '>' "&gt;"
        (replaceCharAll '<' "&lt;"
          (replaceCharAll '&' "&amp;" s))))

/-- `escapeHtml` (source lines 22-30): a falsy argument (`undefined`, `null`
or the empty string) yields the empty string, otherwise the five entity
replacements are applied. -/
def escapeHtml (text : Option String) : String :=
  match text with
  | none => ""
  | some s => if s = "" then "" else escapeReplacements s

/- ## Data model (§3 of the spec) -/

/-- `themeColors`: five optional color strings. -/
structure ThemeColors where
  primary : Option String
  secondary : Option String
  accent : Option String
  background : Option String
  text : Option String
deriving Repr, DecidableEq

/-- A skills category `{id, name, icon}`. -/
structure Category where
  id : String
  name : String
  icon : Option String
deriving Repr, DecidableEq

/-- The `skills` object: an ordered category list and an ordered mapping from
category id to skill labels, each optional. -/
structure SkillsData where
  categories : Option (List Category)
  skills : Option (List (String × List String))
deriving Repr, DecidableEq

/-- One timeline entry. -/
structure TimelineEntry where
  type : String
  year : String
  title : String
  organization : String
  description : Option String
deriving Repr, DecidableEq

/-- One project. -/
structure Project where
  title : String
  summary : Option String
  description : Option String
  image : Option String
  imageBg : Option String
  imageStyle : Option String
  skills : Option (List String)
  githubUrl : Option String
  liveUrl : Option String
  technologies : Option (List String)
deriving Repr, DecidableEq

/-- The `contact` object. -/
structure ContactData where
  email : Option String
  linkedin : Option String
  phone : Option String
  areasOfInterest : Option (List String)
deriving Repr, DecidableEq

/-- The `links` object. -/
structure LinksData where
  github : Option String
deriving Repr, DecidableEq

/-- One professional reference. -/
structure Reference where
  name : String
  title : String
  company : String
  relationship : Option String
  description : Option String
  testimonial : Option String
  email : String
  phone : Option String
  linkedin : Option String
deriving Repr, DecidableEq

/-- The root portfolio document. -/
structure PortfolioDocument where
  name : Option String
  title : Option String
  bio : Option String
  aboutText : Option String
  themeColors : Option ThemeColors
  sectionOrder : Option (List String)
  skills : Option SkillsData
  skillsDisplayMode : Option String
  projects : Option (List Project)
  timeline : Option (List TimelineEntry)
  contact : Option ContactData
  links : Option LinksData
  resumeUrl : Option String
  referencesUrl : Option String
  references : Option (List Reference)
  footerDescriptors : Option (List String)
  projectsDescription : Option String
  contactIntro : Option String
  headshotImage : Option String
deriving Repr, DecidableEq

/-- A document with every field absent, the base for concrete test inputs. -/
def emptyDoc : PortfolioDocument :=
  ⟨none, none, none, none, none, none, none, none, none, none,
   none, none, none, none, none, none, none, none, none⟩

/- ## Resolved globals (source lines 32-41) -/

/-- Resolved primary theme color. -/
def primaryColor (doc : PortfolioDocument) : String :=
  jsOr (doc.themeColors.bind ThemeColors.primary) "#0B3D91"

/-- Resolved secondary theme color. -/
def secondaryColor (doc : PortfolioDocument) : String :=
  jsOr (doc.themeColors.bind ThemeColors.secondary) "#17A2B8"

/-- Resolved accent theme color. -/
def accentColor (doc : PortfolioDocument) : String :=
  jsOr (doc.themeColors.bind ThemeColors.accent) "#F3F4F6"

/-- The default section order (source line 41). -/
def defaultSectionOrder : List String :=
  ["hero", "about", "skills", "projects", "timeline", "contact"]

/-- `sectionOrder = portfolioData.sectionOrder || [...]` (source line 41);
only an absent field takes the default, a present empty array is truthy. -/
def resolvedSectionOrder (doc : PortfolioDocument) : List String :=
  match doc.sectionOrder with
  | none => defaultSectionOrder
  | some l => l

/- ## Icon resolver (source lines 487-631) -/

/-- An icon's SVG wrapper around one stroke path, as every icon in the lookup
table is built. -/
def strokeIcon (d : String) : String :=
  "<svg class=\"w-8 h-8 text-white\" fill=\"none\" stroke=\"currentColor\" viewBox=\"0 0 24 24\">\n        <path stroke-linecap=\"round\" stroke-linejoin=\"round\" stroke-width=\"2\" d=\"" ++
    d ++ "\"></path>\n      </svg>"

/-- The icon wrapper holding two stroke paths (the `tool` family icon). -/
def strokeIcon2 (d1 d2 : String) : String :=
  "<svg class=\"w-8 h-8 text-white\" fill=\"none\" stroke=\"currentColor\" viewBox=\"0 0 24 24\">\n        <path stroke-linecap=\"round\" stroke-linejoin=\"round\" stroke-width=\"2\" d=\"" ++
    d1 ++ "\"></path><path stroke-linecap=\"round\" stroke-linejoin=\"round\" stroke-width=\"2\" d=\"" ++
    d2 ++ "\"></path>\n      </svg>"

/-- Path of the star icon. -/
def dStar : String :=
  "M11.049 2.927c.3-.921 1.603-.921 1.902 0l1.519 4.674a1 1 0 00.95.69h4.915c.969 0 1.371 1.24.588 1.81l-3.976 2.888a1 1 0 00-.363 1.118l1.518 4.674c.3.922-.755 1.688-1.538 1.118l-3.976-2.888a1 1 0 00-1.176 0l-3.976 2.888c-.783.57-1.838-.197-1.538-1.118l1.518-4.674a1 1 0 00-.363-1.118l-3.976-2.888c-.784-.57-.38-1.81.588-1.81h4.914a1 1 0 00.951-.69l1.519-4.674z"

/-- Path of the check/testing icon. -/
def dCheck : String :=
  "M9 12l2 2 4-4m6 2a9 9 0 11-18 0 9 9 0 0118 0z"

/-- Path of the people/professional icon. -/
def dPeople : String :=
  "M17 20h5v-2a3 3 0 00-5.356-1.857M17 20H7m10 0v-2c0-.656-.126-1.283-.356-1.857M7 20H2v-2a3 3 0 015.356-1.857M7 20v-2c0-.656.126-1.283.356-1.857m0 0a5.002 5.002 0 019.288 0M15 7a3 3 0 11-6 0 3 3 0 016 0zm6 3a2 2 0 11-4 0 2 2 0 014 0zM7 10a2 2 0 11-4 0 2 2 0 014 0z"

/-- Path of the framework icon, also the fifth default icon. -/
def dFramework : String :=
  "M19 11H5m14 0a2 2 0 012 2v6a2 2 0 01-2 2H5a2 2 0 01-2-2v-6a2 2 0 012-2m14 0V9a2 2 0 00-2-2M5 11V9a2 2 0 012-2m0 0V5a2 2 0 012-2h6a2 2 0 012 2v2M7 7h10"

/-- The five default icons rotated through for unrecognized identifiers
(source lines 492-508). -/
def defaultIcons : List String :=
  [strokeIcon dStar, strokeIcon dCheck, strokeIcon dPeople, strokeIcon dCheck,
   strokeIcon dFramework]

/-- The icon identifier: `(iconName || categoryName || '').toLowerCase()`
(source line 489). -/
def iconIdentifier (iconName : Option String) (categoryName : String) : String :=
  (jsOr iconName categoryName).toLower

/-- `getCategoryIcon` (source lines 487-631): the fixed lookup table keyed by
the lowercased identifier; an unrecognized identifier falls back to
`defaultIcons[categoryIndex % 5]`. -/
def getCategoryIcon (iconName : Option String) (categoryName : String)
    (categoryIndex : Nat) : String :=
  let identifier := iconIdentifier iconName categoryName
  if identifier = "star" then strokeIcon dStar
  else if identifier = "check" ∨ identifier = "testing" then strokeIcon dCheck
  else if identifier = "people" ∨ identifier = "professional" ∨
      identifier = "professional skills" then strokeIcon dPeople
  else if identifier = "code" ∨ identifier = "technical" ∨
      identifier = "technical skills" then
    strokeIcon "M9 3v2m6-2v2M9 19v2m6-2v2M5 9H3m2 6H3m18-6h-2m2 6h-2M7 19h10a2 2 0 002-2V7a2 2 0 00-2-2H7a2 2 0 00-2 2v10a2 2 0 002 2zM9 9h6v6H9V9z"
  else if identifier = "tool" ∨ identifier = "engineering" ∨
      identifier = "engineering expertise" ∨ identifier = "devops" then
    strokeIcon2 "M10.325 4.317c.426-1.756 2.924-1.756 3.35 0a1.724 1.724 0 002.573 1.066c1.543-.94 3.31.826 2.37 2.37a1.724 1.724 0 001.065 2.572c1.756.426 1.756 2.924 0 3.35a1.724 1.724 0 00-1.066 2.573c.94 1.543-.826 3.31-2.37 2.37a1.724 1.724 0 00-2.572 1.065c-.426 1.756-2.924 1.756-3.35 0a1.724 1.724 0 00-2.573-1.066c-1.543.94-3.31-.826-2.37-2.37a1.724 1.724 0 00-1.065-2.572c-1.756-.426-1.756-2.924 0-3.35a1.724 1.724 0 001.066-2.573c-.94-1.543.826-3.31 2.37-2.37.996.608 2.296.07 2.572-1.065z" "M15 12a3 3 0 11-6 0 3 3 0 016 0z"
  else if identifier = "design" ∨ identifier = "creative" then
    strokeIcon "M7 21a4 4 0 01-4-4V5a2 2 0 012-2h4a2 2 0 012 2v12a4 4 0 01-4 4zM21 5a2 2 0 00-2-2h-4a2 2 0 00-2 2v12a4 4 0 004 4h4a2 2 0 002-2V5z"
  else if identifier = "language" then
    strokeIcon "M3 5h12M9 3v2m1.048 9.5A18.022 18.022 0 016.412 9m6.088 9h7M11 21l5-10 5 10M12.751 5C11.783 10.77 8.07 15.61 3 18.129"
  else if identifier = "heart" ∨ identifier = "soft" ∨
      identifier = "healthcare" ∨ identifier = "volunteer" then
    strokeIcon "M4.318 6.318a4.5 4.5 0 000 6.364L12 20.364l7.682-7.682a4.5 4.5 0 00-6.364-6.364L12 7.636l-1.318-1.318a4.5 4.5 0 00-6.364 0z"
  else if identifier = "certification" then
    strokeIcon "M9 12l2 2 4-4M7.835 4.697a3.42 3.42 0 001.946-.806 3.42 3.42 0 014.438 0 3.42 3.42 0 001.946.806 3.42 3.42 0 013.138 3.138 3.42 3.42 0 00.806 1.946 3.42 3.42 0 010 4.438 3.42 3.42 0 00-.806 1.946 3.42 3.42 0 01-3.138 3.138 3.42 3.42 0 00-1.946.806 3.42 3.42 0 01-4.438 0 3.42 3.42 0 00-1.946-.806 3.42 3.42 0 01-3.138-3.138 3.42 3.42 0 00-.806-1.946 3.42 3.42 0 010-4.438 3.42 3.42 0 00.806-1.946 3.42 3.42 0 013.138-3.138z"
  else if identifier = "framework" then strokeIcon dFramework
  else if identifier = "database" then
    strokeIcon "M4 7v10c0 2.21 3.582 4 8 4s8-1.79 8-4V7M4 7c0 2.21 3.582 4 8 4s8-1.79 8-4M4 7c0-2.21 3.582-4 8-4s8 1.79 8 4m0 5c0 2.21-3.582 4-8 4s-8-1.79-8-4"
  else if identifier = "cloud" then
    strokeIcon "M7 16a4 4 0 01-.88-7.903A5 5 0 1115.9 6L16 6a5 5 0 011 9.9M9 19l3 3m0 0l3-3m-3 3V10"
  else if identifier = "mobile" then
    strokeIcon "M12 18h.01M8 21h8a2 2 0 002-2V5a2 2 0 00-2-2H8a2 2 0 00-2 2v14a2 2 0 002 2z"
  else if identifier = "management" ∨ identifier = "analytics" then
    strokeIcon "M9 19v-6a2 2 0 00-2-2H5a2 2 0 00-2 2v6a2 2 0 002 2h2a2 2 0 002-2zm0 0V9a2 2 0 012-2h2a2 2 0 012 2v10m-6 0a2 2 0 002 2h2a2 2 0 002-2m0 0V5a2 2 0 012-2h2a2 2 0 012 2v14a2 2 0 01-2 2h-2a2 2 0 01-2-2z"
  else if identifier = "research" ∨ identifier = "ai" then
    strokeIcon "M9.663 17h4.673M12 3v1m6.364 1.636l-.707.707M21 12h-1M4 12H3m3.343-5.657l-.707-.707m2.828 9.9a5 5 0 117.072 0l-.548.547A3.374 3.374 0 0014 18.469V19a2 2 0 11-4 0v-.531c0-.895-.356-1.754-.988-2.386l-.548-.547z"
  else if identifier = "communication" then
    strokeIcon "M8 12h.01M12 12h.01M16 12h.01M21 12c0 4.418-4.03 8-9 8a9.863 9.863 0 01-4.255-.949L3 20l1.395-3.72C3.512 15.042 3 13.574 3 12c0-4.418 4.03-8 9-8s9 3.582 9 8z"
  else if identifier = "leadership" ∨ identifier = "startup" then
    strokeIcon "M13 10V3L4 14h7v7l9-11h-7z"
  else if identifier = "security" then
    strokeIcon "M9 12l2 2 4-4m5.618-4.016A11.955 11.955 0 0112 2.944a11.955 11.955 0 01-8.618 3.04A12.02 12.02 0 003 9c0 5.591 3.824 10.29 9 11.622 5.176-1.332 9-6.03 9-11.622 0-1.042-.133-2.052-.382-3.016z"
  else if identifier = "blockchain" then
    strokeIcon "M13.828 10.172a4 4 0 00-5.656 0l-4 4a4 4 0 105.656 5.656l1.102-1.101m-.758-4.899a4 4 0 005.656 0l4-4a4 4 0 00-5.656-5.656l-1.1 1.1"
  else if identifier = "gaming" then
    strokeIcon "M14.828 14.828a4 4 0 01-5.656 0M9 10h1m4 0h1m-6 4h.01M21 12a9 9 0 11-18 0 9 9 0 0118 0z"
  else if identifier = "finance" then
    strokeIcon "M12 8c-1.657 0-3 .895-3 2s1.343 2 3 2 3 .895 3 2-1.343 2-3 2m0-8c1.11 0 2.08.402 2.599 1M12 8V7m0 1v8m0 0v1m0-1c-1.11 0-2.08-.402-2.599-1"
  else if identifier = "education" then
    strokeIcon "M12 6.253v13m0-13C10.832 5.477 9.246 5 7.5 5S4.168 5.477 3 6.253v13C4.168 18.477 5.754 18 7.5 18s3.332.477 4.5 1.253m0-13C13.168 5.477 14.754 5 16.5 5c1.746 0 3.332.477 4.5 1.253v13C19.832 18.477 18.246 18 16.5 18c-1.746 0-3.332.477-4.5 1.253"
  else if identifier = "marketing" then
    strokeIcon "M11 5.882V19.24a1.76 1.76 0 01-3.417.592l-2.147-6.15M18 13a3 3 0 100-6M5.436 13.683A4.001 4.001 0 017 6h1.832c4.1 0 7.625-1.234 9.168-3v14c-1.543-1.766-5.067-3-9.168-3H7a3.988 3.988 0 01-1.564-.317z"
  else if identifier = "sales" then
    strokeIcon "M16 11V7a4 4 0 00-8 0v4M5 9h14l1 12H4L5 9z"
  else if identifier = "consulting" then
    strokeIcon "M8.228 9c.549-1.165 2.03-2 3.772-2 2.21 0 4 1.343 4 3 0 1.4-1.278 2.575-3.006 2.907-.542.104-.994.54-.994 1.093m0 3h.01M21 12a9 9 0 11-18 0 9 9 0 0118 0z"
  else jsIndexStr defaultIcons (categoryIndex % 5)

/- ## Skills rendering (source lines 376-483) -/

/-- `portfolioData.skills.skills?.[category.id] || []` (source lines 421 and
447): the ordered skill list a category id maps to, `[]` when the mapping or
the key is absent. -/
def skillsFor (sk : SkillsData) (id : String) : List String :=
  match sk.skills with
  | none => []
  | some m =>
    match m.lookup id with
    | some l => l
    | none => []

/-- The category filter of card mode (source lines 420-424): keep the
categories whose associated skill list is non-empty. -/
def catsWithSkills (sk : SkillsData) (cats : List Category) : List Category :=
  cats.filter fun category => decide (0 < (skillsFor sk category.id).length)

/-- Grouping into rows of three: repeated `slice(i, i + 3)` with `i` stepping
by 3 (source lines 439-442 and 637-640). -/
def chunk3 {α : Type} : List α → List (List α)
  | [] => []
  | [a] => [[a]]
  | [a, b] => [[a, b]]
  | a :: b :: c :: rest => [a, b, c] :: chunk3 rest

/-- The centered layout class of a partial row (fewer than three items). -/
def partialRowLayout : String := "flex justify-center gap-8 mb-8"

/-- The grid layout class of a full row of three. -/
def gridRowLayout : String :=
  "grid grid-cols-1 md:grid-cols-2 lg:grid-cols-3 gap-8 mb-8"

/-- `${isPartialRow ? 'flex ...' : 'grid ...'}` (source lines 445 and 643). -/
def rowLayoutClass (isPartialRow : Bool) : String :=
  if isPartialRow then partialRowLayout else gridRowLayout

/-- The placeholder fragment card mode returns when no category has skills
(source lines 428-434). -/
def noSkillsMessage : String :=
  "\n      <div class=\"text-center text-gray-500 py-8\">\n          <p>No skills added yet. Add some skills in the editor!</p>\n      </div>\n    "

/-- One category card of card mode (source lines 449-472): icon resolved from
the category's own position `globalIndex` in the filtered sequence. -/
def renderCategoryCard (pc sc : String) (sk : SkillsData)
    (isPartialRow : Bool) (globalIndex : Nat) (category : Category) : String :=
  let skills := skillsFor sk category.id
  "\n              <div class=\"" ++ (if isPartialRow then "w-80" else "w-full") ++
    "\">\n                  <div class=\"bg-white rounded-lg border-0 shadow-lg hover:shadow-xl transition-shadow duration-300 h-full flex flex-col\">\n                      <div class=\"p-8 flex flex-col h-full w-full\">\n                          <div class=\"text-center mb-6\">\n                              <div class=\"w-16 h-16 rounded-full flex items-center justify-center mx-auto mb-4\" style=\"background-color: " ++
    pc ++ ";\">\n                                  " ++
    getCategoryIcon category.icon category.name globalIndex ++
    "\n                              </div>\n                              <h3 class=\"text-xl font-bold mb-4\" style=\"color: " ++
    pc ++ ";\">\n                                  " ++
    escapeHtml (some category.name) ++
    "\n                              </h3>\n                          </div>\n                          <div class=\"space-y-3 flex-1\">\n                              " ++
    String.join (skills.map fun skill =>
      "\n                                  <div class=\"flex items-center\">\n                                      <div class=\"w-2 h-2 rounded-full mr-3 flex-shrink-0\" style=\"background-color: " ++
        sc ++
        ";\"></div>\n                                      <span class=\"text-gray-700 font-medium text-sm leading-tight\">" ++
        escapeHtml (some skill) ++
        "</span>\n                                  </div>\n                              ") ++
    "\n                          </div>\n                      </div>\n                  </div>\n              </div>\n            "

/-- One row of category cards (source lines 444-475): the layout class is
chosen by `rowCategories.length < 3`, the card index is `i + idx`. -/
def renderSkillsRow (pc sc : String) (sk : SkillsData) (base : Nat)
    (rowCategories : List Category) : String :=
  let isPartialRow := decide (rowCategories.length < 3)
  "\n      <div class=\"" ++ rowLayoutClass isPartialRow ++ "\">\n          " ++
    String.join (rowCategories.mapIdx fun idx category =>
      renderCategoryCard pc sc sk isPartialRow (base + idx) category) ++
    "\n      </div>\n    "

/-- The row loop of card mode (source lines 439-476): the slice start `i`
advances by three per row. -/
def skillsRowsGo (pc sc : String) (sk : SkillsData) :
    Nat → List (List Category) → List String
  | _, [] => []
  | base, row :: rest =>
    renderSkillsRow pc sc sk base row :: skillsRowsGo pc sc sk (base + 3) rest

/-- `generateSkillsCards` (source lines 411-483). -/
def generateSkillsCards (doc : PortfolioDocument) : String :=
  match doc.skills with
  | none => ""
  | some sk =>
    match sk.categories with
    | none => ""
    | some cats =>
      let categoriesWithSkills := catsWithSkills sk cats
      if categoriesWithSkills.length = 0 then noSkillsMessage
      else
        "\n    <div class=\"flex flex-col items-center\">\n        " ++
          String.intercalate "\n"
            (skillsRowsGo (primaryColor doc) (secondaryColor doc) sk 0
              (chunk3 categoriesWithSkills)) ++
          "\n    </div>\n  "

/-- The flattened skill sequence of rotating mode:
`Object.values(portfolioData.skills.skills).flat()` (source line 384), in map
insertion order then skill order within each category. -/
def allCarouselSkills (doc : PortfolioDocument) : List String :=
  match doc.skills with
  | none => []
  | some sk =>
    match sk.skills with
    | none => []
    | some m => (m.map Prod.snd).flatten

/-- `allSkills.concat(allSkills).concat(allSkills)` (source line 390): the
flattened sequence tripled for seamless looping, grouped as JavaScript's two
left-to-right `concat` calls group it. -/
def carouselDisplaySkills (doc : PortfolioDocument) : List String :=
  (allCarouselSkills doc ++ allCarouselSkills doc) ++ allCarouselSkills doc

/-- One skill badge of the carousel (source lines 398-403). -/
def carouselBadge (sc : String) (skill : String) : String :=
  "\n                        <span class=\"badge px-4 py-2 text-sm font-medium transition-all duration-300 hover:scale-105 flex-shrink-0\" \n                              style=\"background-color: " ++
    sc ++ "10; color: " ++ sc ++
    ";\">\n                            " ++ escapeHtml (some skill) ++
    "\n                        </span>\n                    "

/-- The carousel markup before the badge list (source lines 392-397). -/
def carouselBefore (pc : String) : String :=
  "\n    <div class=\"text-center mt-8\">\n        <h3 class=\"text-2xl font-semibold mb-8\" style=\"color: " ++
    pc ++
    ";\">Skills</h3>\n        <div class=\"-mx-4 sm:-mx-6 lg:-mx-8\">\n            <div class=\"skills-carousel-container relative overflow-hidden bg-gray-50/50 rounded-lg py-4\">\n                <div class=\"skills-carousel flex gap-3 whitespace-nowrap\" style=\"width: max-content;\">\n                    "

/-- The carousel markup after the badge list (source lines 403-408). -/
def carouselAfter : String :=
  "\n                </div>\n            </div>\n        </div>\n    </div>\n  "

/-- `generateSkillsCarousel` (source lines 376-409). -/
def generateSkillsCarousel (doc : PortfolioDocument) : String :=
  match doc.skills with
  | none => ""
  | some sk =>
    match sk.skills with
    | none => ""
    | some m =>
      let allSkills := (m.map Prod.snd).flatten
      if allSkills.length = 0 then ""
      else
        let displaySkills := (allSkills ++ allSkills) ++ allSkills
        carouselBefore (primaryColor doc) ++
          String.join (displaySkills.map (carouselBadge (secondaryColor doc))) ++
          carouselAfter

/- ## About section (source lines 334-374) -/

/-- The about text with its placeholder default (source line 338). -/
def aboutResolvedText (doc : PortfolioDocument) : String :=
  jsOr doc.aboutText
    "Add your about text here to tell your story and showcase your personality."

/-- `aboutText.split('\n\n')` (source line 339). -/
def aboutParagraphs (doc : PortfolioDocument) : List String :=
  (aboutResolvedText doc).splitOn "\n\n"

/-- `skillsDisplayMode = portfolioData.skillsDisplayMode || 'card'` (source
line 342). -/
def skillsDisplayModeResolved (doc : PortfolioDocument) : String :=
  jsOr doc.skillsDisplayMode "card"

/-- `hasSkills` (source lines 348-351): the skills object exists and its
category list or its skill mapping is non-empty. -/
def hasSkills (doc : PortfolioDocument) : Bool :=
  match doc.skills with
  | none => false
  | some sk =>
    (match sk.categories with
     | some cs => decide (0 < cs.length)
     | none => false) ||
    (match sk.skills with
     | some m => decide (0 < m.length)
     | none => false)

/-- The about markup before the skills slot (source lines 356-369), holding
the heading and the escaped paragraphs. -/
def aboutBefore (doc : PortfolioDocument) : String :=
  "\n    <section id=\"about\" class=\"py-20 bg-white\">\n        <div class=\"px-4 sm:px-6 lg:px-8\">\n            <div class=\"text-center mb-16\">\n                <h2 class=\"text-4xl md:text-5xl font-bold mb-6\" style=\"color: " ++
    primaryColor doc ++
    ";\">About Me</h2>\n                <div class=\"max-w-4xl mx-auto\">\n                    " ++
    String.join ((aboutParagraphs doc).map fun paragraph =>
      "\n                        <p class=\"text-lg md:text-xl text-gray-700 leading-relaxed mb-6\">\n                            " ++
        escapeHtml (some paragraph) ++
        "\n                        </p>\n                    ") ++
    "\n                </div>\n            </div>\n            \n            <!-- Skills Section -->\n            "

/-- The skills slot of the about section (source line 370): the carousel or
the cards when `hasSkills`, a comment placeholder otherwise. -/
def aboutSkillsChunk (doc : PortfolioDocument) : String :=
  if hasSkills doc then
    (if skillsDisplayModeResolved doc = "rotating" then generateSkillsCarousel doc
     else generateSkillsCards doc)
  else "<!-- No skills data -->"

/-- The about markup after the skills slot (source lines 371-373). -/
def aboutAfter : String := "\n        </div>\n    </section>\n  "

/-- `generateAboutSection` (source lines 334-374): empty unless `about` is in
the section order. -/
def generateAboutSection (doc : PortfolioDocument) : String :=
  if (resolvedSectionOrder doc).contains "about" then
    aboutBefore doc ++ aboutSkillsChunk doc ++ aboutAfter
  else ""

/- ## Hero section (source lines 273-332) -/

/-- `generateHeroSection` (source lines 273-332): unconditional; headshot
image when present, placeholder icon otherwise; placeholder text defaults. -/
def generateHeroSection (doc : PortfolioDocument) : String :=
  "\n    <section id=\"hero\" class=\"min-h-screen flex items-center justify-center text-white relative\" style=\"background: linear-gradient(135deg, " ++
    primaryColor doc ++ ", " ++ secondaryColor doc ++
    ");\">\n        <div class=\"max-w-6xl mx-auto px-4 sm:px-6 lg:px-8\">\n            <div class=\"grid lg:grid-cols-2 gap-12 items-center\">\n                <div class=\"flex justify-center lg:justify-start order-2 lg:order-1\">\n                    <div class=\"opacity-100\">\n                        <div class=\"relative\">\n                            <div class=\"w-80 h-auto md:w-96 md:h-auto rounded-2xl overflow-hidden border-4 shadow-2xl\" style=\"border-color: rgba(255, 255, 255, 0.2);\">\n                                " ++
    (if jsTruthy doc.headshotImage then
      "\n                                    <img src=\"" ++
        escapeHtml doc.headshotImage ++ "\" \n                                         alt=\"" ++
        escapeHtml doc.name ++
        " - Professional headshot\" \n                                         class=\"w-full h-full object-contain\">\n                                "
     else
      "\n                                    <div class=\"w-full h-full rounded-2xl flex flex-col items-center justify-center text-white/70\" style=\"background-color: rgba(255, 255, 255, 0.1); border-color: rgba(255, 255, 255, 0.3);\">\n                                        <svg class=\"w-20 h-20 mb-2\" fill=\"currentColor\" viewBox=\"0 0 20 20\">\n                                            <path fill-rule=\"evenodd\" d=\"M4 3a2 2 0 00-2 2v10a2 2 0 002 2h12a2 2 0 002-2V5a2 2 0 00-2-2H4zm12 12H4l4-8 3 6 2-4 3 6z\" clip-rule=\"evenodd\"></path>\n                                        </svg>\n                                        <span class=\"text-sm font-medium\">Add Headshot</span>\n                                    </div>\n                                ") ++
    "\n                            </div>\n                            <div class=\"absolute inset-0 rounded-2xl blur-xl -z-10 scale-110\" style=\"background: linear-gradient(to bottom right, rgba(23, 162, 184, 0.3), transparent);\"></div>\n                        </div>\n                    </div>\n                </div>\n\n                <div class=\"text-center lg:text-left order-1 lg:order-2\">\n                    <h1 class=\"text-4xl md:text-6xl lg:text-7xl font-bold mb-6 leading-tight\">\n                        " ++
    escapeHtml (some (jsOr doc.name "Your Name")) ++
    "\n                    </h1>\n                    <h2 class=\"text-xl md:text-2xl lg:text-3xl font-light mb-8\" style=\"color: " ++
    accentColor doc ++ ";\">\n                        " ++
    escapeHtml (some (jsOr doc.title "Your Professional Title")) ++
    "\n                    </h2>\n                    <p class=\"text-lg md:text-xl lg:text-2xl mb-12 leading-relaxed max-w-2xl\" style=\"color: " ++
    accentColor doc ++ ";\">\n                        " ++
    escapeHtml (some (jsOr doc.bio "Add your professional bio here to introduce yourself and highlight your expertise.")) ++
    "\n                    </p>\n                    <div class=\"flex flex-col sm:flex-row gap-4 justify-center lg:justify-start\">\n                        <a href=\"#projects\" \n                           class=\"inline-flex items-center justify-center text-white h-11 px-8 text-lg font-semibold rounded-lg transition-all duration-300 hover:scale-105 shadow-lg\" \n                           style=\"background-color: " ++
    secondaryColor doc ++ ";\"\n                           onmouseenter=\"this.style.backgroundColor='" ++
    primaryColor doc ++ "'\"\n                           onmouseleave=\"this.style.backgroundColor='" ++
    secondaryColor doc ++
    "'\">\n                            View My Projects\n                        </a>\n                    </div>\n                </div>\n            </div>\n        </div>\n        <div class=\"absolute bottom-8 left-1/2 transform -translate-x-1/2 animate-bounce\">\n            <svg class=\"w-8 h-8\" style=\"color: rgba(255, 255, 255, 0.7);\" fill=\"none\" stroke=\"currentColor\" viewBox=\"0 0 24 24\">\n                <path stroke-linecap=\"round\" stroke-linejoin=\"round\" stroke-width=\"2\" d=\"M19 9l-7 7-7-7\"></path>\n            </svg>\n        </div>\n    </section>\n  "

/- ## Projects section (source lines 633-712) -/

/-- The image-background class ternary of a project card (source line 647). -/
def projectImageBgClass (p : Project) : String :=
  if p.imageBg = some "white" then "bg-white"
  else if p.imageBg = some "black" then "bg-black"
  else "bg-gray-100"

/-- One project card (source lines 644-686): image or placeholder, summary
with description fallback, first three skill tags and a "+N more" badge. -/
def renderProjectCard (doc : PortfolioDocument) (isPartialRow : Bool)
    (project : Project) : String :=
  "\n            <div class=\"" ++ (if isPartialRow then "w-80" else "w-full") ++
    "\">\n                <div class=\"group card border-0 shadow-lg hover:shadow-xl transition-all duration-300 hover:-translate-y-1 overflow-hidden h-full\">\n                    <div class=\"h-48 overflow-hidden flex items-center justify-center " ++
    projectImageBgClass project ++ "\">\n                        " ++
    (if jsTruthy project.image then
      "\n                            <img src=\"" ++ escapeHtml project.image ++
        "\" alt=\"" ++ escapeHtml (some project.title) ++
        "\" class=\"w-full h-full object-" ++ jsOr project.imageStyle "cover" ++
        " transition-transform duration-300 group-hover:scale-105\">\n                        "
     else
      "\n                            <svg class=\"w-12 h-12 text-gray-400\" fill=\"currentColor\" viewBox=\"0 0 20 20\">\n                                <path fill-rule=\"evenodd\" d=\"M4 3a2 2 0 00-2 2v10a2 2 0 002 2h12a2 2 0 002-2V5a2 2 0 00-2-2H4zm12 12H4l4-8 3 6 2-4 3 6z\" clip-rule=\"evenodd\"></path>\n                            </svg>\n                        ") ++
    "\n                    </div>\n                    <div class=\"card-content p-6 flex flex-col h-full\">\n                        <h3 class=\"text-xl font-bold mb-3 group-hover:text-[var(--secondary-theme)] transition-colors duration-300\" style=\"color: var(--primary-theme);\">\n                            " ++
    escapeHtml (some project.title) ++
    "\n                        </h3>\n                        <p class=\"text-gray-600 text-sm leading-relaxed mb-4 line-clamp-4 flex-grow\">\n                            " ++
    escapeHtml (some (jsOr project.summary (jsOr project.description ""))) ++
    "\n                        </p>\n                        " ++
    (match project.skills with
     | some skills =>
       if 0 < skills.length then
         "\n                            <div class=\"flex flex-wrap gap-2 mb-4\">\n                                " ++
           String.join ((skills.take 3).map fun skill =>
             "\n                                    <span class=\"badge badge-secondary px-3 py-1\" style=\"background-color: " ++
               secondaryColor doc ++ "10; color: " ++ secondaryColor doc ++
               ";\">\n                                        " ++
               escapeHtml (some skill) ++
               "\n                                    </span>\n                                ") ++
           (if 3 < skills.length then
             "\n                                    <span class=\"badge badge-secondary px-3 py-1 bg-gray-100 text-gray-600\">\n                                        +" ++
               toString (skills.length - 3) ++
               " more\n                                    </span>\n                                "
            else "") ++
           "\n                            </div>\n                        "
       else ""
     | none => "") ++
    "\n                        <div class=\"flex items-center mt-auto\" style=\"color: var(--primary-theme);\">\n                            <span class=\"text-sm font-semibold\">View Project</span>\n                            <svg class=\"w-4 h-4 ml-2 transform group-hover:translate-x-1 transition-transform duration-300\" fill=\"none\" stroke=\"currentColor\" viewBox=\"0 0 24 24\">\n                                <path stroke-linecap=\"round\" stroke-linejoin=\"round\" stroke-width=\"2\" d=\"M14 5l7 7m0 0l-7 7m7-7H3\"></path>\n                            </svg>\n                        </div>\n                    </div>\n                </div>\n            </div>\n          "

/-- One row of project cards (source lines 642-688), with the same partial
row rule as skills cards. -/
def renderProjectsRow (doc : PortfolioDocument) (rowProjects : List Project) :
    String :=
  let isPartialRow := decide (rowProjects.length < 3)
  "\n      <div class=\"" ++ rowLayoutClass isPartialRow ++ "\">\n          " ++
    String.join (rowProjects.map (renderProjectCard doc isPartialRow)) ++
    "\n      </div>\n    "

/-- `generateProjectsSection` (source lines 633-712): empty unless `projects`
is in the section order and the project list is present and non-empty. -/
def generateProjectsSection (doc : PortfolioDocument) : String :=
  if !(resolvedSectionOrder doc).contains "projects" then ""
  else
    match doc.projects with
    | none => ""
    | some projects =>
      if projects.length = 0 then ""
      else
        "\n    <section id=\"projects\" class=\"py-20 bg-gray-50\">\n        <div class=\"max-w-7xl mx-auto px-4 sm:px-6 lg:px-8\">\n            <div class=\"text-center mb-16\">\n                <h2 class=\"text-4xl md:text-5xl font-bold mb-6\" style=\"color: " ++
          primaryColor doc ++
          ";\">Featured Projects</h2>\n                <p class=\"text-lg text-gray-600 max-w-3xl mx-auto\">\n                    " ++
          escapeHtml (some (jsOr doc.projectsDescription "Explore some of my recent work and personal projects that showcase my skills and passion for development.")) ++
          "\n                </p>\n            </div>\n            " ++
          String.intercalate "\n"
            ((chunk3 projects).map (renderProjectsRow doc)) ++
          "\n            <div class=\"text-center mt-16\">\n                <p class=\"text-gray-600 mb-6\">\n                    Interested in learning more about my work or think I could be a good fit for your team?\n                </p>\n                <a href=\"#contact\" class=\"inline-block px-8 py-3 rounded-lg transition-all duration-300 hover:scale-105 text-white\" style=\"background-color: " ++
          primaryColor doc ++
          ";\">\n                    Get In Touch\n                </a>\n            </div>\n        </div>\n    </section>\n  "

/- ## Timeline section (source lines 714-826) -/

/-- The display name of a timeline type (source lines 729-736): the three
recognized types map to capitalized names, any other type maps to itself. -/
def timelineTypeName (t : String) : String :=
  if t = "education" then "Education"
  else if t = "experience" then "Experience"
  else if t = "research" then "Research"
  else t

/-- `generateTimelineTitle` (source lines 718-746): distinct types in first
occurrence order, reordered by the fixed preference
[education, experience, research], mapped to display names and joined; the
join of three or more uses `typeNames[typeNames.length - 1]`, which for an
empty name list is JavaScript `undefined`, rendered as "undefined". -/
def generateTimelineTitle (timelineData : List TimelineEntry) : String :=
  let types := jsSetDedup (timelineData.map fun item => item.type)
  if types.length = 0 then "Education, Experience & Research"
  else
    let typeOrder := ["education", "experience", "research"]
    let orderedTypes := typeOrder.filter fun t => types.contains t
    let typeNames := orderedTypes.map timelineTypeName
    if typeNames.length = 1 then jsIndexStr typeNames 0
    else if typeNames.length = 2 then
      jsIndexStr typeNames 0 ++ " & " ++ jsIndexStr typeNames 1
    else
      String.intercalate ", " typeNames.dropLast ++ ", & " ++
        jsLastIndexStr typeNames

/-- The badge color ternary of a timeline item (source line 796). -/
def timelineBadgeColor (doc : PortfolioDocument) (item : TimelineEntry) :
    String :=
  if item.type = "education" then primaryColor doc
  else if item.type = "research" then "#8b5cf6"
  else "#0ea5e9"

/-- The badge label ternary of a timeline item (source line 804). -/
def timelineBadgeLabel (item : TimelineEntry) : String :=
  if item.type = "education" then "Education"
  else if item.type = "research" then "Research"
  else "Experience"

/-- One timeline item (source lines 795-820): card side alternates with the
index's parity. -/
def renderTimelineItem (doc : PortfolioDocument) (index : Nat)
    (item : TimelineEntry) : String :=
  "\n                        <div class=\"flex items-center mb-12 " ++
    (if index % 2 = 0 then "flex-row" else "flex-row-reverse") ++
    "\">\n                            <div class=\"w-1/2 " ++
    (if index % 2 = 0 then "pr-8 text-right" else "pl-8 text-left") ++
    "\">\n                                <div class=\"card border-0 shadow-lg hover:shadow-xl transition-shadow duration-300\">\n                                    <div class=\"card-content p-6\">\n                                        <div class=\"flex items-center mb-2\">\n                                            <span class=\"badge text-white mr-3\" style=\"background-color: " ++
    timelineBadgeColor doc item ++ ";\">\n                                                " ++
    timelineBadgeLabel item ++
    "\n                                            </span>\n                                            <span class=\"text-sm font-semibold text-gray-500\">" ++
    escapeHtml (some item.year) ++
    "</span>\n                                        </div>\n                                        <h4 class=\"text-lg font-bold mb-2\" style=\"color: " ++
    primaryColor doc ++ ";\">" ++ escapeHtml (some item.title) ++
    "</h4>\n                                        <p class=\"font-semibold mb-3\" style=\"color: " ++
    secondaryColor doc ++ ";\">" ++ escapeHtml (some item.organization) ++
    "</p>\n                                        " ++
    (match item.description with
     | some d =>
       if d = "" then ""
       else
         "<p class=\"text-gray-600 text-sm leading-relaxed\">" ++
           escapeHtml (some d) ++ "</p>"
     | none => "") ++
    "\n                                    </div>\n                                </div>\n                            </div>\n                            <div class=\"relative z-10\">\n                                <div class=\"timeline-dot\"></div>\n                            </div>\n                            <div class=\"w-1/2\"></div>\n                        </div>\n                      "

/-- The resume / references download button block (source lines 760-789). -/
def timelineDownloadBlock (doc : PortfolioDocument) : String :=
  if jsTruthy doc.resumeUrl || jsTruthy doc.referencesUrl then
    "\n                    <div class=\"flex gap-4 justify-center mb-8\">\n                        " ++
      (if jsTruthy doc.resumeUrl then
        "\n                            <a href=\"" ++ escapeHtml doc.resumeUrl ++
          "\" target=\"_blank\" rel=\"noopener noreferrer\">\n                                <button class=\"inline-flex items-center justify-center gap-2 whitespace-nowrap h-11 px-8 py-3 rounded-lg shadow-lg border bg-transparent transition-all duration-300 hover:scale-105 text-sm font-medium\" style=\"border-color: " ++
          secondaryColor doc ++ "; color: " ++ secondaryColor doc ++
          ";\">\n                                    Download Resume PDF\n                                </button>\n                            </a>\n                        "
       else "") ++
      (if jsTruthy doc.referencesUrl then
        "\n                            <a href=\"" ++
          escapeHtml doc.referencesUrl ++
          "\" target=\"_blank\" rel=\"noopener noreferrer\">\n                                <button class=\"inline-flex items-center justify-center gap-2 whitespace-nowrap h-11 px-8 py-3 rounded-lg shadow-lg border bg-transparent transition-all duration-300 hover:scale-105 text-sm font-medium\" style=\"border-color: " ++
          secondaryColor doc ++ "; color: " ++ secondaryColor doc ++
          ";\">\n                                    Download References PDF\n                                </button>\n                            </a>\n                        "
       else "") ++
      "\n                    </div>\n                "
  else ""

/-- `generateTimelineSection` (source lines 714-826): empty unless `timeline`
is in the section order and the timeline is present and non-empty. -/
def generateTimelineSection (doc : PortfolioDocument) : String :=
  if !(resolvedSectionOrder doc).contains "timeline" then ""
  else
    match doc.timeline with
    | none => ""
    | some timeline =>
      if timeline.length = 0 then ""
      else
        let timelineTitle := generateTimelineTitle timeline
        "\n    <section id=\"timeline\" class=\"py-20 bg-white\">\n        <div class=\"max-w-7xl mx-auto px-4 sm:px-6 lg:px-8\">\n            <div class=\"text-center mb-16\">\n                <h2 class=\"text-4xl md:text-5xl font-bold mb-6\" style=\"color: " ++
          primaryColor doc ++
          ";\">Resume</h2>\n                <p class=\"text-lg text-gray-600 max-w-3xl mx-auto mb-8\">\n                    " ++
          (match doc.references with
           | some refs =>
             if 0 < refs.length then
               "Download my complete resume and references or explore my educational background and professional experience below."
             else
               "Download my complete resume or explore my educational background and professional experience below."
           | none =>
             "Download my complete resume or explore my educational background and professional experience below.") ++
          "\n                </p>\n                " ++
          timelineDownloadBlock doc ++
          "\n            </div>\n            <div class=\"max-w-4xl mx-auto\">\n                <h3 class=\"text-2xl font-bold mb-8 text-center\" style=\"color: " ++
          primaryColor doc ++ ";\">" ++ escapeHtml (some timelineTitle) ++
          "</h3>\n                <div class=\"relative\">\n                    <div class=\"timeline-line\"></div>\n                    " ++
          String.join (timeline.mapIdx (renderTimelineItem doc)) ++
          "\n                </div>\n            </div>\n        </div>\n    </section>\n  "

/- ## Contact section (source lines 828-947) -/

/-- The linkedin display text before escaping (source line 888):
`(linkedin || '').replace('https://', '').replace('linkedin.com/in/', '')`,
each `replace` removing only the first occurrence of its pattern. -/
def linkedinDisplayRaw (v : String) : String :=
  jsReplaceFirst (jsReplaceFirst v "https://" "") "linkedin.com/in/" ""

/-- The github display text before escaping (source line 924):
`(github || '').replace('https://', '').replace('http://', '').replace('github.com/', '')`. -/
def githubDisplayRaw (v : String) : String :=
  jsReplaceFirst
    (jsReplaceFirst (jsReplaceFirst v "https://" "") "http://" "")
    "github.com/" ""

/-- The email contact block (source lines 855-871). -/
def contactEmailBlock (doc : PortfolioDocument) : String :=
  if jsTruthy (doc.contact.bind ContactData.email) then
    "\n                    <div class=\"flex flex-col items-center w-56\">\n                            <div class=\"w-16 h-16 rounded-full flex items-center justify-center mb-4\" style=\"background-color: " ++
      primaryColor doc ++
      ";\">\n                                <svg class=\"w-8 h-8 text-white\" fill=\"none\" stroke=\"currentColor\" viewBox=\"0 0 24 24\">\n                                    <path stroke-linecap=\"round\" stroke-linejoin=\"round\" stroke-width=\"2\" d=\"M3 8l7.89 5.26a2 2 0 002.22 0L21 8M5 19h14a2 2 0 002-2V7a2 2 0 00-2-2H5a2 2 0 00-2 2v10a2 2 0 002 2z\"></path>\n                                </svg>\n                            </div>\n                            <h4 class=\"font-semibold text-gray-900 mb-2\">Email</h4>\n                            <a href=\"mailto:" ++
      escapeHtml (doc.contact.bind ContactData.email) ++
      "\" class=\"transition-colors\" style=\"color: " ++ secondaryColor doc ++
      ";\">\n                                " ++
      escapeHtml (doc.contact.bind ContactData.email) ++
      "\n                            </a>\n                        </div>\n                    "
  else ""

/-- The linkedin contact block (source lines 872-891), with the stripped
display text. -/
def contactLinkedinBlock (doc : PortfolioDocument) : String :=
  if jsTruthy (doc.contact.bind ContactData.linkedin) then
    "\n                    <div class=\"flex flex-col items-center w-56\">\n                            <div class=\"w-16 h-16 rounded-full flex items-center justify-center mb-4\" style=\"background-color: " ++
      primaryColor doc ++
      ";\">\n                                <svg class=\"w-8 h-8 text-white\" fill=\"none\" stroke=\"currentColor\" viewBox=\"0 0 24 24\">\n                                    <path stroke-linecap=\"round\" stroke-linejoin=\"round\" stroke-width=\"2\" d=\"M16 8a6 6 0 016 6v7h-4v-7a2 2 0 00-2-2 2 2 0 00-2 2v7h-4v-7a6 6 0 016-6zM2 9h4v12H2z\"></path>\n                                    <circle cx=\"4\" cy=\"4\" r=\"2\" stroke-linecap=\"round\" stroke-linejoin=\"round\" stroke-width=\"2\"></circle>\n                                </svg>\n                            </div>\n                            <h4 class=\"font-semibold text-gray-900 mb-2\">LinkedIn</h4>\n                            <a href=\"" ++
      escapeHtml (doc.contact.bind ContactData.linkedin) ++
      "\" target=\"_blank\" rel=\"noopener noreferrer\" class=\"transition-colors\" style=\"color: " ++
      secondaryColor doc ++ ";\">\n                                " ++
      escapeHtml (some (linkedinDisplayRaw
        (jsOr (doc.contact.bind ContactData.linkedin) ""))) ++
      "\n                            </a>\n                        </div>\n                    "
  else ""

/-- The phone contact block (source lines 892-908). -/
def contactPhoneBlock (doc : PortfolioDocument) : String :=
  if jsTruthy (doc.contact.bind ContactData.phone) then
    "\n                    <div class=\"flex flex-col items-center w-56\">\n                            <div class=\"w-16 h-16 rounded-full flex items-center justify-center mb-4\" style=\"background-color: " ++
      primaryColor doc ++
      ";\">\n                                <svg class=\"w-8 h-8 text-white\" fill=\"none\" stroke=\"currentColor\" viewBox=\"0 0 24 24\">\n                                    <path stroke-linecap=\"round\" stroke-linejoin=\"round\" stroke-width=\"2\" d=\"M3 5a2 2 0 012-2h3.28a1 1 0 01.948.684l1.498 4.493a1 1 0 01-.502 1.21l-2.257 1.13a11.042 11.042 0 005.516 5.516l1.13-2.257a1 1 0 011.21-.502l4.493 1.498a1 1 0 01.684.949V19a2 2 0 01-2 2h-1C9.716 21 3 14.284 3 6V5z\"></path>\n                                </svg>\n                            </div>\n                            <h4 class=\"font-semibold text-gray-900 mb-2\">Phone</h4>\n                            <a href=\"tel:" ++
      escapeHtml (doc.contact.bind ContactData.phone) ++
      "\" class=\"transition-colors\" style=\"color: " ++ secondaryColor doc ++
      ";\">\n                                " ++
      escapeHtml (doc.contact.bind ContactData.phone) ++
      "\n                            </a>\n                        </div>\n                    "
  else ""

/-- The github contact block (source lines 909-927), with the stripped
display text. -/
def contactGithubBlock (doc : PortfolioDocument) : String :=
  if jsTruthy (doc.links.bind LinksData.github) then
    "\n                    <div class=\"flex flex-col items-center w-56\">\n                            <div class=\"w-16 h-16 rounded-full flex items-center justify-center mb-4\" style=\"background-color: " ++
      primaryColor doc ++
      ";\">\n                                <svg class=\"w-8 h-8 text-white\" fill=\"currentColor\" viewBox=\"0 0 20 20\">\n                                    <path fill-rule=\"evenodd\" d=\"M10 0C4.477 0 0 4.484 0 10.017c0 4.425 2.865 8.18 6.839 9.504.5.092.682-.217.682-.483 0-.237-.008-.868-.013-1.703-2.782.605-3.369-1.343-3.369-1.343-.454-1.158-1.11-1.466-1.11-1.466-.908-.62.069-.608.069-.608 1.003.07 1.531 1.032 1.531 1.032.892 1.53 2.341 1.088 2.91.832.092-.647.35-1.088.636-1.338-2.22-.253-4.555-1.113-4.555-4.951 0-1.093.39-1.988 1.029-2.688-.103-.253-.446-1.272.098-2.65 0 0 .84-.27 2.75 1.026A9.564 9.564 0 0110 4.844c.85.004 1.705.115 2.504.337 1.909-1.296 2.747-1.027 2.747-1.027.546 1.379.203 2.398.1 2.651.64.7 1.028 1.595 1.028 2.688 0 3.848-2.339 4.695-4.566 4.942.359.31.678.921.678 1.856 0 1.338-.012 2.419-.012 2.747 0 .268.18.58.688.482A10.019 10.019 0 0020 10.017C20 4.484 15.522 0 10 0z\" clip-rule=\"evenodd\"></path>\n                                </svg>\n                            </div>\n                            <h4 class=\"font-semibold text-gray-900 mb-2\">GitHub</h4>\n                            <a href=\"" ++
      escapeHtml (doc.links.bind LinksData.github) ++
      "\" target=\"_blank\" rel=\"noopener noreferrer\" class=\"transition-colors\" style=\"color: " ++
      secondaryColor doc ++ ";\">\n                                " ++
      escapeHtml (some (githubDisplayRaw
        (jsOr (doc.links.bind LinksData.github) ""))) ++
      "\n                            </a>\n                        </div>\n                    "
  else ""

/-- The areas-of-interest block (source lines 930-942). -/
def contactAreasBlock (doc : PortfolioDocument) : String :=
  match doc.contact.bind ContactData.areasOfInterest with
  | some areas =>
    if 0 < areas.length then
      "\n                    <div class=\"mt-12 text-center\">\n                        <h4 class=\"font-semibold text-gray-900 mb-4\">Areas of Interest</h4>\n                        <div class=\"flex flex-wrap justify-center gap-2\">\n                            " ++
        String.join (areas.map fun interest =>
          "\n                                <span class=\"px-3 py-1 rounded-full text-sm font-medium transition-colors\" style=\"background-color: " ++
            secondaryColor doc ++ "10; color: " ++ secondaryColor doc ++
            ";\">\n                                    " ++
            escapeHtml (some interest) ++
            "\n                                </span>\n                            ") ++
        "\n                        </div>\n                    </div>\n                "
    else ""
  | none => ""

/-- `generateContactSection` (source lines 828-947): empty unless `contact`
is in the section order; each contact method renders independently. -/
def generateContactSection (doc : PortfolioDocument) : String :=
  if !(resolvedSectionOrder doc).contains "contact" then ""
  else
    "\n    <section id=\"contact\" class=\"py-20 bg-white\">\n        <div class=\"max-w-7xl mx-auto px-4 sm:px-6 lg:px-8\">\n            <div class=\"text-center mb-16\">\n                <h2 class=\"text-4xl md:text-5xl font-bold mb-6\" style=\"color: " ++
      primaryColor doc ++
      ";\">Get In Touch</h2>\n                <p class=\"text-lg text-gray-600 max-w-3xl mx-auto\">\n                    " ++
      escapeHtml (some (jsOr doc.contactIntro "I'm always interested in discussing new opportunities or answering questions about my work. Feel free to reach out!")) ++
      "\n                </p>\n            </div>\n            <div class=\"max-w-3xl mx-auto\">\n                <div class=\"flex flex-wrap md:flex-nowrap justify-center gap-6 text-center\">\n                    " ++
      contactEmailBlock doc ++ contactLinkedinBlock doc ++
      contactPhoneBlock doc ++ contactGithubBlock doc ++
      "\n                </div>\n                \n                " ++
      contactAreasBlock doc ++
      "\n            </div>\n        </div>\n    </section>\n  "

/- ## Main page section dispatch (source lines 160-179) -/

/-- The recognized section identifiers of the dispatch switch. -/
def recognizedSectionIds : List String :=
  ["hero", "about", "skills", "projects", "timeline", "contact"]

/-- The `switch (sectionId)` of `generateCompleteHTML` (source lines 162-178):
`skills` and every unrecognized identifier dispatch to the empty fragment. -/
def sectionFragment (doc : PortfolioDocument) (sectionId : String) : String :=
  if sectionId = "hero" then generateHeroSection doc
  else if sectionId = "about" then generateAboutSection doc
  else if sectionId = "skills" then ""
  else if sectionId = "projects" then generateProjectsSection doc
  else if sectionId = "timeline" then generateTimelineSection doc
  else if sectionId = "contact" then generateContactSection doc
  else ""

/-- `sectionOrder.map(...).join('\n')` (source lines 161-179): the main
page's section fragments in section-order order, newline separated. -/
def mainSections (doc : PortfolioDocument) : String :=
  String.intercalate "\n" ((resolvedSectionOrder doc).map (sectionFragment doc))

/-- The document with its `sectionOrder` field replaced, for stating
position-independence of the about/skills nesting. -/
def withSectionOrder (doc : PortfolioDocument) (order : List String) :
    PortfolioDocument :=
  { doc with sectionOrder := some order }

/- ## References page (source lines 1019-1226 and 1337-1342) -/

/-- `ref.name.split(' ').map(n => n[0]).join('')` (source line 1097): the
initials; a word's missing first character is `undefined`, which
`Array.prototype.join` renders as the empty string. -/
def referenceInitials (name : String) : String :=
  String.join ((name.splitOn " ").map fun n =>
    match n.data.head? with
    | some c => String.singleton c
    | none => "")

/-- One reference card (source lines 1098-1157). -/
def renderReferenceCard (doc : PortfolioDocument) (ref : Reference) : String :=
  "\n                        <div class=\"bg-white rounded-lg border-0 shadow-lg hover:shadow-xl transition-shadow duration-300\">\n                            <div class=\"p-8\">\n                                <div class=\"text-center mb-6\">\n                                    <div class=\"w-16 h-16 rounded-full flex items-center justify-center mx-auto mb-4\" style=\"background-color: " ++
    primaryColor doc ++
    ";\">\n                                        <span class=\"text-white font-bold text-xl\">" ++
    escapeHtml (some (referenceInitials ref.name)) ++
    "</span>\n                                    </div>\n                                    <h3 class=\"text-xl font-bold mb-2\" style=\"color: " ++
    primaryColor doc ++ ";\">" ++ escapeHtml (some ref.name) ++
    "</h3>\n                                    <p class=\"font-semibold mb-1\" style=\"color: " ++
    secondaryColor doc ++ ";\">" ++ escapeHtml (some ref.title) ++
    "</p>\n                                    <p class=\"text-gray-600 font-medium mb-2\">" ++
    escapeHtml (some ref.company) ++
    "</p>\n                                    <p class=\"text-sm text-gray-500 italic\">" ++
    escapeHtml (some (jsOr ref.relationship "")) ++
    "</p>\n                                </div>\n\n                                <p class=\"text-gray-700 text-sm leading-relaxed mb-6\">" ++
    escapeHtml (some (jsOr ref.description (jsOr ref.testimonial ""))) ++
    "</p>\n\n                                <div class=\"space-y-3\">\n                                    <div class=\"flex items-center text-sm\">\n                                        <a href=\"mailto:" ++
    escapeHtml (some ref.email) ++
    "\" class=\"text-gray-700 transition-colors\">\n                                            " ++
    escapeHtml (some ref.email) ++
    "\n                                        </a>\n                                    </div>\n                                    " ++
    (if jsTruthy ref.phone then
      "\n                                        <div class=\"flex items-center text-sm\">\n                                            <a href=\"tel:" ++
        escapeHtml ref.phone ++
        "\" class=\"text-gray-700 transition-colors\">\n                                                " ++
        escapeHtml ref.phone ++
        "\n                                            </a>\n                                        </div>\n                                    "
     else "") ++
    (if jsTruthy ref.linkedin then
      "\n                                        <div class=\"flex items-center text-sm\">\n                                            <a href=\"https://" ++
        escapeHtml ref.linkedin ++
        "\" target=\"_blank\" rel=\"noopener noreferrer\" class=\"text-gray-700 transition-colors\">\n                                                " ++
        escapeHtml ref.linkedin ++
        "\n                                            </a>\n                                        </div>\n                                    "
     else "") ++
    "\n                                </div>\n                            </div>\n                        </div>\n                    "

/-- `generateReferencesHTML` (source lines 1019-1226).  The renderer
dereferences `portfolioData.references.map(...)` unconditionally (source line
1096): when the `references` field is absent this is a TypeError in
JavaScript, modelled as `none`; otherwise the page text is produced. -/
def generateReferencesHTML (doc : PortfolioDocument) : Option String :=
  match doc.references with
  | none => none
  | some references =>
    some
      ("<!DOCTYPE html>\n<html lang=\"en\">\n<head>\n    <meta charset=\"UTF-8\">\n    <title>References - " ++
        escapeHtml doc.name ++
        "</title>\n</head>\n<body>\n    <section class=\"pt-24 pb-12 text-white\" style=\"background: linear-gradient(135deg, " ++
        primaryColor doc ++ ", " ++ secondaryColor doc ++
        ");\">\n        <h1 class=\"text-4xl md:text-5xl font-bold mb-6\">Professional References</h1>\n        " ++
        (if jsTruthy doc.referencesUrl then
          "\n                    <a href=\"" ++ escapeHtml doc.referencesUrl ++
            "\" download=\"References.pdf\" target=\"_blank\" rel=\"noopener noreferrer\">\n                            Download References PDF\n                    </a>\n                "
         else "") ++
        "\n    </section>\n    <section class=\"py-20 bg-gray-50\">\n        <div class=\"grid md:grid-cols-2 lg:grid-cols-3 gap-8\">\n            " ++
        String.join (references.map (renderReferenceCard doc)) ++
        "\n        </div>\n    </section>\n    <footer class=\"text-white py-12\" style=\"background-color: " ++
        primaryColor doc ++
        ";\">\n        <h3 class=\"text-2xl font-bold mb-4\">" ++
        escapeHtml doc.name ++ "</h3>\n        <p class=\"mb-6\">" ++
        escapeHtml (some (jsOr doc.title "")) ++
        "</p>\n    </footer>\n</body>\n</html>")

/-- The driver's trigger for writing `references.html` (source line 1337):
`(referencesUrl && referencesUrl.trim() !== '') || (references && references.length > 0)`. -/
def writesReferencesPage (doc : PortfolioDocument) : Bool :=
  (jsTruthy doc.referencesUrl &&
    decide (jsTrim (jsOr doc.referencesUrl "") ≠ "")) ||
  (match doc.references with
   | some references => decide (0 < references.length)
   | none => false)

/-- Whether the run actually produces `references.html`: the driver's trigger
fires (source line 1337) and the renderer returns page text rather than
throwing — when `references` is absent, `generateReferencesHTML` throws at
its `references.map` (source line 1096) before the `fs.writeFileSync` of
source line 1340 runs, so no file appears. -/
def referencesFileProduced (doc : PortfolioDocument) : Bool :=
  writesReferencesPage doc && (generateReferencesHTML doc).isSome

/- ## Derived predicates and spec-worded comparators for the claims -/

/-- Whether some entry of the timeline has the given `type` value. -/
def timelineHasType (tl : List TimelineEntry) (t : String) : Bool :=
  (tl.map fun e => e.type).contains t

/-- The timeline heading as a function of which recognized types are present
(education, experience, research), the closed form the title generator is
proved to compute for every non-empty timeline.  With no recognized type
present the generator falls into its three-or-more join with an empty name
list and yields ", & undefined". -/
def titleFromPresence (edu exp res : Bool) : String :=
  match edu, exp, res with
  | true, true, true => "Education, Experience, & Research"
  | true, true, false => "Education & Experience"
  | true, false, true => "Education & Research"
  | false, true, true => "Experience & Research"
  | true, false, false => "Education"
  | false, true, false => "Experience"
  | false, false, true => "Research"
  | false, false, false => ", & undefined"

/-- Removal of a leading occurrence only: the string with `pre` dropped when
it stands at the very start, unchanged otherwise.  This follows the claim's
words ("the value with the leading prefix removed") and is compared against
the code's first-occurrence `replace`. -/
def dropLeading (pre s : String) : String :=
  if pre.data.isPrefixOf s.data then ⟨s.data.drop pre.data.length⟩ else s

/-- The linkedin display text as the claim words it: leading "https://" and
then leading "linkedin.com/in/" removed. -/
def linkedinDisplaySpec (v : String) : String :=
  dropLeading "linkedin.com/in/" (dropLeading "https://" v)

/- ## Concrete documents for counterexamples and witnesses -/

/-- A timeline entry whose type is outside the recognized set. -/
def tlVolunteer : TimelineEntry := ⟨"volunteering", "2020", "Helper", "Org", none⟩

/-- An education timeline entry. -/
def tlEdu : TimelineEntry := ⟨"education", "2019", "BSc", "University", none⟩

/-- A research timeline entry. -/
def tlRes : TimelineEntry := ⟨"research", "2021", "Assistant", "Lab", none⟩

/-- A document whose one skills category has an empty skill list. -/
def docEmptyCategory : PortfolioDocument :=
  { emptyDoc with skills := some ⟨some [⟨"a", "Cat A", none⟩], some [("a", [])]⟩ }

/-- A document with an explicit section order holding an unrecognized id. -/
def docOrderDemo : PortfolioDocument :=
  { emptyDoc with sectionOrder := some ["contact", "bogus", "hero"] }

/-- A document with a references URL but no references sequence: the driver's
trigger fires for it, and the references renderer dereferences the absent
sequence. -/
def docUrlOnly : PortfolioDocument :=
  { emptyDoc with referencesUrl := some "https://example.com/refs.pdf" }

/-- A document whose skills mapping holds two categories of skills, for the
rotating-mode witness. -/
def docCarousel : PortfolioDocument :=
  { emptyDoc with
    skills := some ⟨none, some [("c1", ["a", "b"]), ("c2", ["c"])]⟩ }

/-- Four categories with ids a-d, for the card-mode row witness. -/
def cats4 : List Category :=
  [⟨"a", "A", none⟩, ⟨"b", "B", none⟩, ⟨"c", "C", none⟩, ⟨"d", "D", none⟩]

/-- A skills object giving each of the four categories one skill, for the
card-mode row witness: four filtered categories make two rows, the trailing
one partial. -/
def skFourCats : SkillsData :=
  ⟨some cats4,
   some [("a", ["s1"]), ("b", ["s2"]), ("c", ["s3"]), ("d", ["s4"])]⟩

/- ## Helper lemmas -/

theorem mem_jsSetDedupGo (x : String) :
    ∀ (l seen : List String), x ∈ jsSetDedupGo seen l ↔ x ∈ l ∧ x ∉ seen := by
  intro l
  induction l with
  | nil => intro seen; simp [jsSetDedupGo]
  | cons a as ih =>
    intro seen
    by_cases ha : a ∈ seen
    · simp only [jsSetDedupGo, if_pos ha, ih, List.mem_cons]
      constructor
      · rintro ⟨hx, hns⟩; exact ⟨Or.inr hx, hns⟩
      · rintro ⟨hx | hx, hns⟩
        · exact absurd (hx ▸ ha) hns
        · exact ⟨hx, hns⟩
    · simp only [jsSetDedupGo, if_neg ha, List.mem_cons, ih]
      constructor
      · rintro (rfl | ⟨hx, hns⟩)
        · exact ⟨Or.inl rfl, ha⟩
        · simp only [List.mem_cons, not_or] at hns
          exact ⟨Or.inr hx, hns.2⟩
      · rintro ⟨rfl | hx, hns⟩
        · exact Or.inl rfl
        · by_cases hxa : x = a
          · exact Or.inl hxa
          · exact Or.inr ⟨hx, by simp [List.mem_cons, hxa, hns]⟩

theorem mem_jsSetDedup (x : String) (l : List String) :
    x ∈ jsSetDedup l ↔ x ∈ l := by
  simp [jsSetDedup, mem_jsSetDedupGo]

theorem jsSetDedup_contains (x : String) (l : List String) :
    (jsSetDedup l).contains x = l.contains x := by
  by_cases h : x ∈ l <;>
    simp [List.contains_iff_exists_mem_beq, mem_jsSetDedup, h]

theorem jsSetDedup_cons_ne_nil (a : String) (l : List String) :
    jsSetDedup (a :: l) ≠ [] := by
  simp [jsSetDedup, jsSetDedupGo]

theorem flatMap_id_of_not_mem (c : Char) (rep : List Char) :
    ∀ l : List Char, (∀ x ∈ l, x ≠ c) →
      (l.flatMap fun x => if x = c then rep else [x]) = l := by
  intro l
  induction l with
  | nil => intro _; rfl
  | cons a as ih =>
    intro h
    have ha : a ≠ c := h a (List.mem_cons_self a as)
    simp only [List.flatMap_cons, if_neg ha, List.singleton_append,
      List.cons.injEq, true_and]
    exact ih fun x hx => h x (List.mem_cons_of_mem a hx)

theorem replaceCharAll_id (c : Char) (rep : String) (s : String)
    (h : ∀ x ∈ s.data, x ≠ c) : replaceCharAll c rep s = s := by
  unfold replaceCharAll
  rw [flatMap_id_of_not_mem c rep.data s.data h]

theorem escapeReplacements_id (s : String)
    (h : ∀ x ∈ s.data, x ∉ ['&', '<', '>', '"', '\'']) :
    escapeReplacements s = s := by
  have h' : ∀ x ∈ s.data, x ≠ '&' ∧ x ≠ '<' ∧ x ≠ '>' ∧ x ≠ '"' ∧ x ≠ '\'' := by
    intro x hx
    have := h x hx
    simp only [List.mem_cons, List.not_mem_nil, or_false, not_or] at this
    exact ⟨this.1, this.2.1, this.2.2.1, this.2.2.2.1, this.2.2.2.2⟩
  unfold escapeReplacements
  rw [replaceCharAll_id '&' _ s fun x hx => (h' x hx).1,
    replaceCharAll_id '<' _ s fun x hx => (h' x hx).2.1,
    replaceCharAll_id '>' _ s fun x hx => (h' x hx).2.2.1,
    replaceCharAll_id '"' _ s fun x hx => (h' x hx).2.2.2.1,
    replaceCharAll_id '\'' _ s fun x hx => (h' x hx).2.2.2.2]

theorem replaceFirstL_append_self (pat rep tail : List Char) (hp : pat ≠ []) :
    replaceFirstL pat rep (pat ++ tail) = rep ++ tail := by
  rcases pat with _ | ⟨a, as⟩
  · exact absurd rfl hp
  · show replaceFirstL (a :: as) rep (a :: (as ++ tail)) = rep ++ tail
    have hpre : (a :: as).isPrefixOf (a :: (as ++ tail)) = true := by
      rw [List.isPrefixOf_iff_prefix]
      exact List.prefix_append (a :: as) tail
    simp only [replaceFirstL, hpre, if_pos]
    simp [List.drop_left]

theorem replaceFirstL_of_not_occurs (pat rep : List Char) :
    ∀ hay : List Char, occursInL pat hay = false →
      replaceFirstL pat rep hay = hay := by
  intro hay
  induction hay with
  | nil =>
    intro h
    simp only [occursInL] at h
    have : pat ≠ [] := by
      intro hp; subst hp; simp [List.isPrefixOf] at h
    simp [replaceFirstL, this]
  | cons c rest ih =>
    intro h
    simp only [occursInL, Bool.or_eq_false_iff] at h
    simp [replaceFirstL, h.1, ih h.2]

theorem chunk3_flatten {α : Type} : ∀ l : List α, (chunk3 l).flatten = l := by
  intro l
  induction l using chunk3.induct with
  | case1 => simp [chunk3]
  | case2 a => simp [chunk3]
  | case3 a b => simp [chunk3]
  | case4 a b c rest ih => simp [chunk3, ih]

theorem chunk3_length {α : Type} :
    ∀ l : List α, (chunk3 l).length = (l.length + 2) / 3 := by
  intro l
  induction l using chunk3.induct with
  | case1 => simp [chunk3]
  | case2 a => simp [chunk3]
  | case3 a b => simp [chunk3]
  | case4 a b c rest ih =>
    simp only [chunk3, List.length_cons, ih]
    omega

theorem chunk3_eq_nil_iff {α : Type} (l : List α) : chunk3 l = [] ↔ l = [] := by
  cases l with
  | nil => simp [chunk3]
  | cons a as =>
    cases as with
    | nil => simp [chunk3]
    | cons b bs =>
      cases bs with
      | nil => simp [chunk3]
      | cons c cs => simp [chunk3]

theorem chunk3_dropLast_lengths {α : Type} :
    ∀ l : List α, ∀ r ∈ (chunk3 l).dropLast, r.length = 3 := by
  intro l
  induction l using chunk3.induct with
  | case1 => simp [chunk3]
  | case2 a => simp [chunk3]
  | case3 a b => simp [chunk3]
  | case4 a b c rest ih =>
    intro r hr
    rcases h : chunk3 rest with _ | ⟨x, xs⟩
    · rw [chunk3, h] at hr
      simp at hr
    · rw [chunk3, h, List.dropLast_cons₂] at hr
      rcases List.mem_cons.mp hr with rfl | hr'
      · rfl
      · exact ih r (by rw [h]; exact hr')

theorem chunk3_getLast_length {α : Type} :
    ∀ l : List α, l ≠ [] →
      ∃ r, (chunk3 l).getLast? = some r ∧
        r.length = (if l.length % 3 = 0 then 3 else l.length % 3) := by
  intro l
  induction l using chunk3.induct with
  | case1 => intro h; exact absurd rfl h
  | case2 a => intro _; exact ⟨[a], by simp [chunk3], by simp⟩
  | case3 a b => intro _; exact ⟨[a, b], by simp [chunk3], by simp⟩
  | case4 a b c rest ih =>
    intro _
    rcases h : chunk3 rest with _ | ⟨x, xs⟩
    · have hrest : rest = [] := (chunk3_eq_nil_iff rest).mp h
      subst hrest
      exact ⟨[a, b, c], by simp [chunk3], by simp⟩
    · have hrest : rest ≠ [] := by
        intro hr
        subst hr
        simp [chunk3] at h
      obtain ⟨r, hr1, hr2⟩ := ih hrest
      refine ⟨r, ?_, ?_⟩
      · rw [chunk3, h, List.getLast?_cons_cons, ← h, hr1]
      · rw [hr2]
        have hm : (a :: b :: c :: rest).length % 3 = rest.length % 3 := by
          simp only [List.length_cons]
          omega
        rw [hm]

/- ## Claim C2: the escaping utility on empty, whitespace and absent input -/

/-- C2, counterexample: the claim says every all-whitespace string maps to
the empty string, but the single-space string is truthy in JavaScript, passes
the falsy guard unchanged through all five replacements, and comes back as
itself, not as the empty string. -/
theorem C2_escapeHtml_counterexample :
    escapeHtml (some " ") = " " ∧ (" " : String) ≠ "" := by
  constructor
  · decide
  · decide

/-- C2, amended: absent (`undefined`/`null`) input and the empty string map
to the empty string (never the text "undefined" or "null"), and a string of
only whitespace characters is returned unchanged — so a non-empty
all-whitespace string does not map to the empty string. -/
theorem C2_escapeHtml_amended :
    escapeHtml none = "" ∧ escapeHtml (some "") = "" ∧
    ∀ s : String, (∀ c ∈ s.data, isJsWhitespace c) → escapeHtml (some s) = s := by
  refine ⟨rfl, rfl, ?_⟩
  intro s h
  by_cases hs : s = ""
  · subst hs; rfl
  · simp only [escapeHtml, if_neg hs]
    apply escapeReplacements_id
    intro x hx
    have hw := h x hx
    have hmem : x ∈ jsWhitespaceChars := by
      simpa [isJsWhitespace, List.elem_iff] using hw
    have hsafe : ∀ y ∈ jsWhitespaceChars, y ∉ ['&', '<', '>', '"', '\''] := by
      decide
    exact hsafe x hmem

/-- C2, witness: the amended theorem applied to the single-space string. -/
theorem C2_escapeHtml_witness : escapeHtml (some " ") = " " :=
  C2_escapeHtml_amended.2.2 " " (by decide)

/- ## Claim C3: zero-skill categories in card mode -/

/-- C3, counterexample: a document whose skills data is present (one
category) but whose every skill list is empty makes `generateSkillsCards`
return the "No skills added yet" placeholder fragment, not the empty string
the claim asserts. -/
theorem C3_skillsCards_counterexample :
    generateSkillsCards docEmptyCategory = noSkillsMessage ∧
      noSkillsMessage ≠ "" := by
  constructor
  · rfl
  · decide

/-- C3, amended: a category is rendered in card mode exactly when its
associated skill list is non-empty (zero-skill categories are excluded); the
renderer returns the empty string when the skills object or its category list
is absent; but when categories are present and none has skills it returns the
placeholder message fragment, not the empty string. -/
theorem C3_skillsCards_amended :
    (∀ (sk : SkillsData) (cats : List Category), ∀ c ∈ cats,
      (c ∈ catsWithSkills sk cats ↔ skillsFor sk c.id ≠ [])) ∧
    (∀ doc : PortfolioDocument, doc.skills = none →
      generateSkillsCards doc = "") ∧
    (∀ (doc : PortfolioDocument) (sk : SkillsData), doc.skills = some sk →
      sk.categories = none → generateSkillsCards doc = "") ∧
    (∀ (doc : PortfolioDocument) (sk : SkillsData) (cats : List Category),
      doc.skills = some sk → sk.categories = some cats →
      catsWithSkills sk cats = [] →
      generateSkillsCards doc = noSkillsMessage) := by
  refine ⟨?_, ?_, ?_, ?_⟩
  · intro sk cats c hc
    simp [catsWithSkills, List.mem_filter, hc, List.length_pos]
  · intro doc h
    simp [generateSkillsCards, h]
  · intro doc sk h1 h2
    simp [generateSkillsCards, h1, h2]
  · intro doc sk cats h1 h2 h3
    simp [generateSkillsCards, h1, h2, h3]

/-- C3, witness: the amended theorem applied to the concrete document whose
one category has an empty skill list. -/
theorem C3_skillsCards_witness :
    generateSkillsCards docEmptyCategory = noSkillsMessage :=
  C3_skillsCards_amended.2.2.2 docEmptyCategory
    ⟨some [⟨"a", "Cat A", none⟩], some [("a", [])]⟩ [⟨"a", "Cat A", none⟩]
    rfl rfl (by decide)

/- ## Claim C6: production of the references page -/

/-- The driver's line-1337 trigger alone fires exactly when `referencesUrl`
is present and non-empty after trimming, or `references` is a present
non-empty sequence — but the trigger firing is not yet the file existing,
see the claim theorem below. -/
theorem writesReferencesPage_iff (doc : PortfolioDocument) :
    writesReferencesPage doc = true ↔
      ((∃ u, doc.referencesUrl = some u ∧ jsTrim u ≠ "") ∨
       (∃ rs, doc.references = some rs ∧ rs ≠ [])) := by
  unfold writesReferencesPage jsTruthy jsOr
  rcases hu : doc.referencesUrl with _ | u <;>
    rcases hr : doc.references with _ | rs
  · simp
  · simp [List.length_pos]
  · by_cases hu0 : u = ""
    · subst hu0
      simp [show jsTrim "" = "" from rfl]
    · simp [hu0]
  · by_cases hu0 : u = ""
    · subst hu0
      simp [show jsTrim "" = "" from rfl, List.length_pos]
    · simp [hu0, List.length_pos]

/-- C6, counterexample: for the document whose `referencesUrl` is
"https://example.com/refs.pdf" (non-empty after trimming) with no
`references` field, the claim asserts references.html is generated; in fact
the renderer throws before the write and no file is produced. -/
theorem C6_referencesPage_counterexample :
    docUrlOnly.referencesUrl = some "https://example.com/refs.pdf" ∧
    jsTrim "https://example.com/refs.pdf" ≠ "" ∧
    referencesFileProduced docUrlOnly = false := by
  refine ⟨rfl, by decide, by decide⟩

/-- C6, amended: references.html is produced if and only if the `references`
sequence is present AND (`referencesUrl` is non-empty after trimming OR
`references` is non-empty).  The claim's trigger condition alone fires the
driver's branch, but when `referencesUrl` is non-empty after trimming and
`references` is absent, the renderer crashes on the absent sequence before
the file write, so the file is not produced. -/
theorem C6_referencesPage_amended (doc : PortfolioDocument) :
    referencesFileProduced doc = true ↔
      ((∃ rs, doc.references = some rs) ∧
       ((∃ u, doc.referencesUrl = some u ∧ jsTrim u ≠ "") ∨
        (∃ rs, doc.references = some rs ∧ rs ≠ []))) := by
  unfold referencesFileProduced
  rw [Bool.and_eq_true, writesReferencesPage_iff]
  rcases hr : doc.references with _ | rs
  · simp [generateReferencesHTML, hr]
  · simp [generateReferencesHTML, hr]

/- ## Claim C7: the references renderer crashes when only the URL is set -/

/-- C7: for the document with a non-empty `referencesUrl` and no `references`
field the driver's trigger fires, yet the references renderer dereferences
the absent sequence (`portfolioData.references.map`), which in JavaScript is
a TypeError — modelled as `none`: no page text exists.  The claim's asserted
safety fails; this is a defect of the code, not of the claim. -/
theorem C7_references_crash :
    writesReferencesPage docUrlOnly = true ∧
      generateReferencesHTML docUrlOnly = none := by
  constructor
  · decide
  · rfl

/- ## Claim C4: section order drives the main page fragments -/

/-- C4: the main page body is exactly the section fragments of the resolved
order joined with a newline; the fragment list tracks the order position by
position (no reordering, no deduplication); and every identifier outside the
recognized set contributes the empty fragment. -/
theorem C4_sectionOrder_join (doc : PortfolioDocument) (sid : String)
    (hs : sid ∉ recognizedSectionIds) :
    mainSections doc =
      String.intercalate "\n"
        ((resolvedSectionOrder doc).map (sectionFragment doc)) ∧
    (∀ i : Nat,
      ((resolvedSectionOrder doc).map (sectionFragment doc))[i]? =
        ((resolvedSectionOrder doc)[i]?).map (sectionFragment doc)) ∧
    ((resolvedSectionOrder doc).map (sectionFragment doc)).length =
      (resolvedSectionOrder doc).length ∧
    sectionFragment doc sid = "" := by
  refine ⟨rfl, fun i => by simp [List.getElem?_map], by simp, ?_⟩
  simp only [recognizedSectionIds, List.mem_cons, List.not_mem_nil, or_false,
    not_or] at hs
  obtain ⟨h1, h2, h3, h4, h5, h6⟩ := hs
  simp [sectionFragment, h1, h2, h3, h4, h5, h6]

/-- C4, witness: the theorem at the concrete order [contact, bogus, hero] and
the unrecognized identifier "bogus". -/
theorem C4_sectionOrder_witness :
    mainSections docOrderDemo =
      String.intercalate "\n"
        ((resolvedSectionOrder docOrderDemo).map (sectionFragment docOrderDemo)) ∧
    (∀ i : Nat,
      ((resolvedSectionOrder docOrderDemo).map (sectionFragment docOrderDemo))[i]? =
        ((resolvedSectionOrder docOrderDemo)[i]?).map
          (sectionFragment docOrderDemo)) ∧
    ((resolvedSectionOrder docOrderDemo).map (sectionFragment docOrderDemo)).length =
      (resolvedSectionOrder docOrderDemo).length ∧
    sectionFragment docOrderDemo "bogus" = "" :=
  C4_sectionOrder_join docOrderDemo "bogus" (by decide)

/- ## Claim C5: skills never render independently, only inside about -/

/-- C5: the `skills` identifier dispatches to the empty fragment; whenever
`about` is in the resolved order, the about fragment is exactly the markup
before the skills slot, then the skills content, then the closing markup
(the skills content sits nested in it once, as the one middle factor); and
the about fragment does not depend on where — or whether — `skills` appears
in the section order. -/
theorem C5_skills_nested (doc : PortfolioDocument) :
    sectionFragment doc "skills" = "" ∧
    ((resolvedSectionOrder doc).contains "about" = true →
      generateAboutSection doc =
        aboutBefore doc ++ aboutSkillsChunk doc ++ aboutAfter) ∧
    (∀ o₁ o₂ : List String, o₁.contains "about" = true →
      o₂.contains "about" = true →
      generateAboutSection (withSectionOrder doc o₁) =
        generateAboutSection (withSectionOrder doc o₂)) := by
  refine ⟨rfl, ?_, ?_⟩
  · intro h
    simp only [generateAboutSection, h]
    rfl
  · intro o₁ o₂ h₁ h₂
    have e₁ : resolvedSectionOrder (withSectionOrder doc o₁) = o₁ := rfl
    have e₂ : resolvedSectionOrder (withSectionOrder doc o₂) = o₂ := rfl
    simp only [generateAboutSection, e₁, e₂, h₁, h₂, if_true]
    rfl

/-- C5, witness: the theorem applied at a concrete document, with `skills`
first in one order and last in the other. -/
theorem C5_skills_nested_witness :
    sectionFragment docOrderDemo "skills" = "" ∧
    ((resolvedSectionOrder docOrderDemo).contains "about" = true →
      generateAboutSection docOrderDemo =
        aboutBefore docOrderDemo ++ aboutSkillsChunk docOrderDemo ++ aboutAfter) ∧
    (∀ o₁ o₂ : List String, o₁.contains "about" = true →
      o₂.contains "about" = true →
      generateAboutSection (withSectionOrder docOrderDemo o₁) =
        generateAboutSection (withSectionOrder docOrderDemo o₂)) :=
  C5_skills_nested docOrderDemo

/- ## Claim C8: rotating mode triples the flattened skill sequence -/

/-- C8: the carousel's rendered badge sequence is the flattened skill
sequence (map insertion order, then skill order) concatenated to itself three
times, in that exact order; the whole carousel reduces to the empty string
exactly when prerequisite data is missing or the flattened sequence is empty. -/
theorem C8_carousel_triple (doc : PortfolioDocument) :
    carouselDisplaySkills doc =
      allCarouselSkills doc ++ allCarouselSkills doc ++ allCarouselSkills doc ∧
    (generateSkillsCarousel doc = "" ∨
      generateSkillsCarousel doc =
        carouselBefore (primaryColor doc) ++
          String.join ((carouselDisplaySkills doc).map
            (carouselBadge (secondaryColor doc))) ++
          carouselAfter) ∧
    (allCarouselSkills doc = [] → generateSkillsCarousel doc = "") := by
  refine ⟨by simp [carouselDisplaySkills, List.append_assoc], ?_, ?_⟩
  · rcases hsk : doc.skills with _ | sk
    · exact Or.inl (by simp [generateSkillsCarousel, hsk])
    · rcases hm : sk.skills with _ | m
      · exact Or.inl (by simp [generateSkillsCarousel, hsk, hm])
      · by_cases hl : ((m.map Prod.snd).flatten).length = 0
        · exact Or.inl (by simp [generateSkillsCarousel, hsk, hm, hl])
        · refine Or.inr ?_
          have ha : allCarouselSkills doc = (m.map Prod.snd).flatten := by
            simp [allCarouselSkills, hsk, hm]
          simp only [generateSkillsCarousel, hsk, hm]
          rw [if_neg hl]
          simp only [carouselDisplaySkills, ha]
  · intro h
    rcases hsk : doc.skills with _ | sk
    · simp [generateSkillsCarousel, hsk]
    · rcases hm : sk.skills with _ | m
      · simp [generateSkillsCarousel, hsk, hm]
      · have hnil : (m.map Prod.snd).flatten = [] := by
          have := h
          simp only [allCarouselSkills, hsk, hm] at this
          exact this
        simp [generateSkillsCarousel, hsk, hm, hnil]

/-- C8, witness: flattened skills [a, b, c] (grouped as two categories)
render as the nine-element tripled sequence, and a document with no skills
renders nothing. -/
theorem C8_carousel_witness :
    carouselDisplaySkills docCarousel =
      ["a", "b", "c", "a", "b", "c", "a", "b", "c"] ∧
    generateSkillsCarousel emptyDoc = "" :=
  ⟨(C8_carousel_triple docCarousel).1.trans (by decide),
   (C8_carousel_triple emptyDoc).2.2 (by decide)⟩

/- ## Claim C9: card mode rows of three -/

/-- C9: for M ≥ 1 filtered categories, card mode renders ceil(M/3) — written
(M+2)/3 — rows; the rows flatten back to the filtered sequence in its
original relative order; every non-trailing row has three categories and gets
the grid layout; and the trailing row gets the centered partial-row layout
exactly when M mod 3 ≠ 0. -/
theorem C9_cardRows (sk : SkillsData) (cats : List Category)
    (hM : 1 ≤ (catsWithSkills sk cats).length) :
    chunk3 (catsWithSkills sk cats) ≠ [] ∧
    (chunk3 (catsWithSkills sk cats)).length =
      ((catsWithSkills sk cats).length + 2) / 3 ∧
    (chunk3 (catsWithSkills sk cats)).flatten = catsWithSkills sk cats ∧
    (∀ r ∈ (chunk3 (catsWithSkills sk cats)).dropLast,
      r.length = 3 ∧ rowLayoutClass (decide (r.length < 3)) = gridRowLayout) ∧
    (∀ r, (chunk3 (catsWithSkills sk cats)).getLast? = some r →
      (rowLayoutClass (decide (r.length < 3)) = partialRowLayout ↔
        (catsWithSkills sk cats).length % 3 ≠ 0)) := by
  have hne : catsWithSkills sk cats ≠ [] := by
    intro h0
    rw [h0] at hM
    simp at hM
  refine ⟨?_, chunk3_length _, chunk3_flatten _, ?_, ?_⟩
  · rw [Ne, chunk3_eq_nil_iff]
    exact hne
  · intro r hr
    have h3 := chunk3_dropLast_lengths _ r hr
    refine ⟨h3, ?_⟩
    simp [rowLayoutClass, h3]
  · intro r hr
    obtain ⟨r', h1, h2⟩ := chunk3_getLast_length _ hne
    rw [hr] at h1
    obtain rfl : r = r' := by injection h1
    have hcls : ∀ b : Bool, (rowLayoutClass b = partialRowLayout ↔ b = true) := by
      intro b
      cases b <;> decide
    rw [hcls]
    simp only [decide_eq_true_eq]
    by_cases h0 : (catsWithSkills sk cats).length % 3 = 0
    · rw [if_pos h0] at h2
      omega
    · rw [if_neg h0] at h2
      omega

/-- C9, witness: four filtered categories make two rows — the first full and
grid laid out, the trailing one partial since 4 mod 3 ≠ 0. -/
theorem C9_cardRows_witness :
    chunk3 (catsWithSkills skFourCats cats4) ≠ [] ∧
    (chunk3 (catsWithSkills skFourCats cats4)).length =
      ((catsWithSkills skFourCats cats4).length + 2) / 3 ∧
    (chunk3 (catsWithSkills skFourCats cats4)).flatten =
      catsWithSkills skFourCats cats4 ∧
    (∀ r ∈ (chunk3 (catsWithSkills skFourCats cats4)).dropLast,
      r.length = 3 ∧ rowLayoutClass (decide (r.length < 3)) = gridRowLayout) ∧
    (∀ r, (chunk3 (catsWithSkills skFourCats cats4)).getLast? = some r →
      (rowLayoutClass (decide (r.length < 3)) = partialRowLayout ↔
        (catsWithSkills skFourCats cats4).length % 3 ≠ 0)) :=
  C9_cardRows skFourCats cats4 (by decide)

/- ## Claim C1: the timeline heading -/

/-- C1, counterexample: a non-empty timeline whose one entry's type is
unrecognized does not get the fallback title the claim asserts — the
generator's distinct-type list is non-empty (so the fallback guard does not
fire), the ordered recognized-name list is empty, and the three-or-more join
produces ", & undefined". -/
theorem C1_timelineTitle_counterexample :
    generateTimelineTitle [tlVolunteer] = ", & undefined" ∧
      (", & undefined" : String) ≠ "Education, Experience & Research" := by
  constructor
  · rfl
  · decide

/-- C1, amended: for every non-empty timeline the heading depends only on
which recognized types are present, through the preferred order
[education, experience, research] and the stated join rules — one name
alone, "A & B" for two, "A, B, & C" for three; but when every entry's type
is outside the recognized set the heading is ", & undefined", not the
fallback title (the fallback "Education, Experience & Research" is returned
only for an empty distinct-type list, which a non-empty timeline never
produces). -/
theorem C1_timelineTitle_amended (tl : List TimelineEntry) (h : tl ≠ []) :
    generateTimelineTitle tl =
      titleFromPresence (timelineHasType tl "education")
        (timelineHasType tl "experience") (timelineHasType tl "research") := by
  obtain ⟨e, es, rfl⟩ : ∃ e es, tl = e :: es := by
    rcases tl with _ | ⟨e, es⟩
    · exact absurd rfl h
    · exact ⟨e, es, rfl⟩
  have hlen : (jsSetDedup ((e :: es).map fun item => item.type)).length ≠ 0 := by
    simp only [List.map_cons, ne_eq, List.length_eq_zero]
    exact jsSetDedup_cons_ne_nil _ _
  have hc : ∀ t, (jsSetDedup ((e :: es).map fun item => item.type)).contains t =
      timelineHasType (e :: es) t := by
    intro t
    rw [jsSetDedup_contains]
    rfl
  simp only [generateTimelineTitle]
  rw [if_neg hlen]
  cases he : timelineHasType (e :: es) "education" <;>
    cases hx : timelineHasType (e :: es) "experience" <;>
      cases hr : timelineHasType (e :: es) "research" <;>
        · simp only [hc, List.filter_cons, List.filter_nil, he, hx, hr]
          decide

/-- C1, witness: a timeline listing research before education is still headed
"Education & Research" — the preferred order overrides input order. -/
theorem C1_timelineTitle_witness :
    generateTimelineTitle [tlRes, tlEdu] =
      titleFromPresence (timelineHasType [tlRes, tlEdu] "education")
        (timelineHasType [tlRes, tlEdu] "experience")
        (timelineHasType [tlRes, tlEdu] "research") ∧
    generateTimelineTitle [tlRes, tlEdu] = "Education & Research" :=
  ⟨C1_timelineTitle_amended [tlRes, tlEdu] (by decide), by decide⟩

/- ## Claim C10: contact link display text -/

theorem jsReplaceFirst_append_self (pre tail : String) (h : pre.data ≠ []) :
    jsReplaceFirst (pre ++ tail) pre "" = tail := by
  unfold jsReplaceFirst
  rw [String.data_append, replaceFirstL_append_self _ _ _ h]
  rfl

theorem linkedinDisplayRaw_strip (r : String) :
    linkedinDisplayRaw ("https://linkedin.com/in/" ++ r) = r := by
  have hsplit : ("https://linkedin.com/in/" : String) =
      "https://" ++ "linkedin.com/in/" := by decide
  unfold linkedinDisplayRaw
  rw [hsplit, String.append_assoc, jsReplaceFirst_append_self _ _ (by decide),
    jsReplaceFirst_append_self _ _ (by decide)]

theorem githubDisplayRaw_strip (r : String)
    (h : occursInL "http://".data r.data = false) :
    githubDisplayRaw ("https://github.com/" ++ r) = r := by
  have hsplit : ("https://github.com/" : String) =
      "https://" ++ "github.com/" := by decide
  unfold githubDisplayRaw
  rw [hsplit, String.append_assoc, jsReplaceFirst_append_self _ _ (by decide)]
  have hno : occursInL "http://".data ("github.com/" ++ r).data = false := by
    have hp : "http://".data = ['h', 't', 't', 'p', ':', '/', '/'] := by decide
    have hg : "github.com/".data =
        ['g', 'i', 't', 'h', 'u', 'b', '.', 'c', 'o', 'm', '/'] := by decide
    rw [String.data_append, hg]
    rw [hp] at h ⊢
    simp [occursInL, List.isPrefixOf, h]
  have hmid : jsReplaceFirst ("github.com/" ++ r) "http://" "" =
      "github.com/" ++ r := by
    unfold jsReplaceFirst
    rw [replaceFirstL_of_not_occurs _ _ _ hno]
  rw [hmid, jsReplaceFirst_append_self _ _ (by decide)]

/-- C10, counterexample: JavaScript `replace` removes the first occurrence of
its pattern anywhere in the string, not only a leading prefix.  On a linkedin
value whose URL sits mid-string the code's display text differs from the
claim's leading-prefix stripping. -/
theorem C10_contactLinks_counterexample :
    linkedinDisplayRaw "see https://linkedin.com/in/bob" = "see bob" ∧
    linkedinDisplaySpec "see https://linkedin.com/in/bob" =
      "see https://linkedin.com/in/bob" ∧
    ("see bob" : String) ≠ "see https://linkedin.com/in/bob" := by
  refine ⟨by decide, by decide, by decide⟩

/-- C10, amended: the display text removes the first occurrence of each
pattern ("https://" then "linkedin.com/in/" for linkedin; "https://",
"http://", then "github.com/" for github) anywhere in the value, which
coincides with prefix stripping whenever the value begins with those
prefixes: every "https://linkedin.com/in/" ++ rest displays as rest, and
every "https://github.com/" ++ rest (rest without an embedded "http://")
displays as rest — in particular the spec's two examples display as
"someone". -/
theorem C10_contactLinks_amended :
    (∀ r : String, linkedinDisplayRaw ("https://linkedin.com/in/" ++ r) = r) ∧
    (∀ r : String, occursInL "http://".data r.data = false →
      githubDisplayRaw ("https://github.com/" ++ r) = r) :=
  ⟨linkedinDisplayRaw_strip, githubDisplayRaw_strip⟩

/-- C10, witness: the amended theorem at the spec's two example values. -/
theorem C10_contactLinks_witness :
    linkedinDisplayRaw ("https://linkedin.com/in/" ++ "someone") = "someone" ∧
    githubDisplayRaw ("https://github.com/" ++ "someone") = "someone" :=
  ⟨C10_contactLinks_amended.1 "someone",
   C10_contactLinks_amended.2 "someone" (by decide)⟩
